import Mathlib

/-!
Shallow embedding of the core of the `ttn_mass_provision` provisioning tool
(files `app.py`, `conduit.py`, `conduit_ssh.py`, `jumphost.py`, `constants.py`,
`settings.py`)
and proofs about it.

Conventions used throughout:

* Python values that may be an exception are modelled with `PyResult`:
  `.ret a` is an ordinary return, `.exn msg` is a raised exception.
* Remote SSH side effects are modelled with oracles: each remote query gets
  its answer as an explicit argument, and each mutating `ssh.sudo` command
  issued is recorded in an `RCmd` trace, whose constructors carry the
  variable parts of the corresponding shell command one-to-one.
* Python `str` is modelled by `String`; where character-level computation
  matters the embedding works on `String.data : List Char`.
* Python `int` is modelled by `Int` (UIDs, ports), except for bit-free
  counting uses where `Nat` is the natural type (e.g. `mkdir` modes, which
  are non-negative literals in the source).
-/

/-- Result of calling a Python function: a returned value or a raised
exception (with its message). -/
inductive PyResult (α : Type) where
  | ret (a : α)
  | exn (msg : String)
deriving DecidableEq, Repr

-- Constants from `constants.py` (class `Constants`).
namespace Constants

/-- JUMPHOST_FIRST_UID from `constants.py`. -/
def JUMPHOST_FIRST_UID : Int := 20000

/-- JUMPHOST_FIRST_KEEPALIVE from `constants.py`. -/
def JUMPHOST_FIRST_KEEPALIVE : Int := 40000

end Constants

/-- The `Settings.JumphostAttributes` dataclass from `settings.py`. -/
structure JumphostAttributes where
  description : String
  username : String
  hostname : String
  port : Int
  first_uid : Int
  first_keepalive : Int
deriving DecidableEq, Repr

/-- The `Settings.ProductAttributes` dataclass from `settings.py`. -/
structure ProductAttributes where
  device_type : String
  device_class : String
  has_cellular : Bool
deriving DecidableEq, Repr

/-- The state of a `Jumphost` object (`jumphost.py`, `Jumphost.__init__`):
the attribute record it was built from, plus the fields the constructor
assigns.  The `ssh`, `options`, `settings` and `logger` fields carry no
state relevant to the embedded logic (remote effects are oracles). -/
structure Jumphost where
  attr : JumphostAttributes
  hostname : String
  first_uid : Int
  first_keepalive : Int
deriving DecidableEq, Repr

/-- `Jumphost.__init__` (jumphost.py lines 38-58): `hostname` is copied from
the attributes, while `first_uid` and `first_keepalive` are assigned from the
global `Constants`, NOT from `attr.first_uid` / `attr.first_keepalive`. -/
def Jumphost.init (attr : JumphostAttributes) : Jumphost :=
  { attr := attr
    hostname := attr.hostname
    first_uid := Constants.JUMPHOST_FIRST_UID
    first_keepalive := Constants.JUMPHOST_FIRST_KEEPALIVE }

/-- The state of a `Conduit` object (`conduit.py`, `Conduit.__init__`):
identity set at discovery plus the fields that are populated later
(initially `None`). -/
structure Conduit where
  ip : String
  mac : String
  product_id : Option String := none
  product_attributes : Option ProductAttributes := none
  hostname : Option String := none
  friendly_name : Option String := none
  public_key : Option String := none
  lora_eui64 : Option String := none
  jumphost_userid : Option Int := none
deriving DecidableEq, Repr

/-- `Conduit.get_jumphost_userid` (conduit.py lines 179-181): the per-gateway
recorded UID; the jumphost argument is ignored (single-jumphost design). -/
def Conduit.get_jumphost_userid (c : Conduit) (_jumphost : Jumphost) : Option Int :=
  c.jumphost_userid

/-- `Conduit.set_jumphost_userid` (conduit.py lines 186-191): record the UID
if unset; raise `Conduit.Error` if a different UID is already recorded;
return `True` otherwise. -/
def Conduit.set_jumphost_userid (c : Conduit) (_jumphost : Jumphost) (userid : Int) :
    PyResult (Bool × Conduit) :=
  match c.jumphost_userid with
  | none => .ret (true, { c with jumphost_userid := some userid })
  | some v =>
      if userid ≠ v then
        .exn "Conduit.Error: cannot change jumphost_userid to a different value"
      else
        .ret (true, c)

/-- `Conduit.get_jumphost_reverse_socket` (conduit.py lines 196-197): the
reverse-tunnel port is the recorded UID itself. -/
def Conduit.get_jumphost_reverse_socket (c : Conduit) (jumphost : Jumphost) : Option Int :=
  c.get_jumphost_userid jumphost

/-- `Conduit.get_jumphost_keepalive` (conduit.py lines 202-203):
`(self.get_jumphost_userid(jumphost) - jumphost.first_uid) * 2 +
jumphost.first_keepalive`.  When the recorded UID is `None`, Python
evaluates `None - int` and raises `TypeError`; the subtraction never
returns `None`. -/
def Conduit.get_jumphost_keepalive (c : Conduit) (jumphost : Jumphost) : PyResult Int :=
  match c.get_jumphost_userid jumphost with
  | none => .exn "TypeError: unsupported operand types for NoneType and int"
  | some uid => .ret ((uid - jumphost.first_uid) * 2 + jumphost.first_keepalive)

/-- One mutating remote command (`ssh.sudo` call).  Each constructor
corresponds to one call site in the source and carries the variable parts
of the shell command it builds. -/
inductive RCmd where
  /-- `useradd --comment <name> --password * --gid <group> --no-user-group
  --create-home --key UID_MIN=<attr.first_uid> [-u <uid>] <id>`
  (jumphost.py lines 140-155). -/
  | useraddCmd (comment : Option String) (gid : Option String) (uid_min : Int)
      (uid_flag : Option Int) (login : Option String)
  /-- `groupadd <group>` (jumphost.py line 99). -/
  | groupaddCmd (group : String)
  /-- `ntpdate -ub pool.ntp.org` (conduit.py line 212). -/
  | ntpdateCmd
  /-- `mkdir -p -m %o <path>` with `%o` the octal rendering of the mode
  (conduit.py line 220). -/
  | mkdirCmd (mode : Nat) (path : String)
deriving DecidableEq, Repr

/-- `Jumphost.create_jumphost_user` (jumphost.py lines 128-164).

Remote-state oracles: `query1` is the answer of the initial
`query_jumphost_user gateway_id` (`getent passwd`, a read-only command:
`some u` means the account exists with UID `u`); `useraddAnswer` is the
outcome of the `useradd` sudo command (`none` = catastrophic failure,
`some ok` = completed with success flag `ok`); `query2` is the answer of
the re-query performed after a successful `useradd`.

The returned trace lists the mutating (`ssh.sudo`) commands issued. -/
def Jumphost.create_jumphost_user (j : Jumphost)
    (query1 : Option Int) (useraddAnswer : Option Bool) (query2 : Option Int)
    (desired_uid : Option Int) (gateway_name : Option String) (gateway_id : Option String)
    (gateway_groupname : Option String) : Option Int × List RCmd :=
  match query1 with
  | some current_uid =>
      -- user already exists
      match desired_uid with
      | some d =>
          if current_uid ≠ d then
            (none, [])            -- uid conflict, logged as error
          else
            (some current_uid, []) -- idempotent success
      | none => (some current_uid, [])
  | none =>
      -- user absent: build and run the useradd command
      let cmd : RCmd :=
        RCmd.useraddCmd gateway_name gateway_groupname j.attr.first_uid desired_uid gateway_id
      match useraddAnswer with
      | none => (none, [cmd])
      | some ok =>
          if ok then
            (query2, [cmd])       -- re-query for the authoritative UID
          else
            (none, [cmd])

-- ====================================================================
-- MAC normalization (app.py line 334):
--   '-'.join(["%02x" % int(hex, 16) for hex in mac.split(':')])
-- ====================================================================

/-- Python `str.isdigit`-style test for the characters accepted by
`int(s, 16)` in the forms that occur here: an ASCII hex digit.  (The other
literal forms `int` accepts — sign, base prefix, surrounding whitespace,
underscores — never occur in MAC octet fields, which are produced either by
the ARP regular expression or by splitting a hex string.) -/
def pyIsHexDigit (c : Char) : Bool :=
  (48 ≤ c.toNat && c.toNat ≤ 57)       -- ASCII 0-9
    || (97 ≤ c.toNat && c.toNat ≤ 102) -- ASCII a-f
    || (65 ≤ c.toNat && c.toNat ≤ 70)  -- ASCII A-F

/-- Numeric value of an ASCII hex digit. -/
def hexVal (c : Char) : Nat :=
  if c.toNat ≤ 57 then c.toNat - 48
  else if 97 ≤ c.toNat then c.toNat - 87
  else c.toNat - 55

/-- Python `int(s, 16)` on a character list: `some` of the value when the
string is a non-empty run of hex digits, `none` (a raised `ValueError`)
otherwise. -/
def pyIntHexChars (l : List Char) : Option Nat :=
  if l.isEmpty then none
  else if l.all pyIsHexDigit then
    some (l.foldl (fun a c => 16 * a + hexVal c) 0)
  else none

/-- Python `s.split(sep)` (one-character separator, no maxsplit): splits on
every occurrence, keeping empty fields; `"".split(sep) = [""]`. -/
def pySplitChar (sep : Char) : List Char → List (List Char)
  | [] => [[]]
  | c :: rest =>
    if c = sep then [] :: pySplitChar sep rest
    else
      match pySplitChar sep rest with
      | [] => [[c]]   -- unreachable: pySplitChar never returns []
      | p :: ps => (c :: p) :: ps

/-- Python `"-".join(parts)`. -/
def pyJoinHyphen : List (List Char) → List Char
  | [] => []
  | [p] => p
  | p :: ps => p ++ '-' :: pyJoinHyphen ps

/-- Python `"%02x" % n`: lowercase hex digits, zero-padded to width 2. -/
def pyFormat02x (n : Nat) : List Char :=
  let ds := Nat.toDigits 16 n
  if ds.length < 2 then '0' :: ds else ds

/-- Left-to-right evaluation of `[int(h, 16) for h in parts]`: `none` as
soon as one field raises. -/
def mapIntHex : List (List Char) → Option (List Nat)
  | [] => some []
  | p :: ps =>
    match pyIntHexChars p with
    | none => none
    | some n =>
      match mapIntHex ps with
      | none => none
      | some ns => some (n :: ns)

/-- The discovery engine's MAC canonicalization (app.py line 334), on a
character list: split on `:`, parse each field as hex, format each value
as two lowercase hex digits, join with `-`.  `none` models the
`ValueError` raised by `int` on a non-hex field. -/
def normalizeMacChars (l : List Char) : Option (List Char) :=
  match mapIntHex (pySplitChar ':' l) with
  | none => none
  | some ns => some (pyJoinHyphen (ns.map pyFormat02x))

/-- The discovery engine's MAC canonicalization on a Python string. -/
def normalizeMac (s : String) : Option String :=
  (normalizeMacChars s.data).map (fun l => String.mk l)

-- ====================================================================
-- ARP neighbor-table parsing (app.py lines 303-349, App.find_conduits)
--
-- The regular expression, matched at the start of each line:
--   \S+ \((?P<ip>[0-9.]+)\) at (?P<macaddr>0?0:0?8:0?0(:[0-9a-fA-F]?[0-9a-fA-F]){3})\s
-- The matcher below reproduces its backtracking semantics; comments note
-- the places where greedy matching is deterministic.
-- ====================================================================

/-- Python regex `\s` on ASCII input (space, tab, newline, carriage
return, vertical tab, form feed). -/
def pyIsSpace (c : Char) : Bool :=
  c = ' ' || c = '\t' || c = '\n' || c = '\r' || c = '\x0B' || c = '\x0C'

/-- Character class `[0-9.]` of the ip group. -/
def pyIsDigitDot (c : Char) : Bool :=
  (48 ≤ c.toNat && c.toNat ≤ 57) || c = '.'

/-- Match `0?d:` (a leading-zero-optional octet plus its separating colon).
Greedy matching is deterministic here: when `0d:` is a prefix the short
variant `d:` cannot also apply, and conversely. Returns the consumed
characters and the rest. -/
def octColon (d : Char) (l : List Char) : Option (List Char × List Char) :=
  if l.take 3 = ['0', d, ':'] then some (['0', d, ':'], l.drop 3)
  else if l.take 2 = [d, ':'] then some ([d, ':'], l.drop 2)
  else none

/-- Match `(:[0-9a-fA-F]?[0-9a-fA-F]){k}` followed by a `\s` lookahead (the
trailing whitespace is required but not consumed).  Implements the regex
backtracking order: each group tries two hex digits first, then one.
Returns the consumed characters and the rest (starting at the whitespace). -/
def macGroups : Nat → List Char → Option (List Char × List Char)
  | 0, l =>
    match l with
    | c :: rest => if pyIsSpace c then some ([], c :: rest) else none
    | [] => none
  | k + 1, l =>
    match l with
    | ':' :: rest0 =>
      match rest0 with
      | d1 :: rest1 =>
        if pyIsHexDigit d1 then
          match rest1 with
          | d2 :: rest2 =>
            if pyIsHexDigit d2 then
              match macGroups k rest2 with
              | some (s, r) => some (':' :: d1 :: d2 :: s, r)
              | none =>
                -- backtrack: one digit for this group
                match macGroups k (d2 :: rest2) with
                | some (s, r) => some (':' :: d1 :: s, r)
                | none => none
            else
              match macGroups k (d2 :: rest2) with
              | some (s, r) => some (':' :: d1 :: s, r)
              | none => none
          | [] =>
            match macGroups k [] with
            | some (s, r) => some (':' :: d1 :: s, r)
            | none => none
        else none
      | [] => none
    | _ => none

/-- Match the tail `0?0(:hh){3}\s` of the macaddr group (the third fixed
octet and the three free octets).  When the input starts with `00`, regex
backtracking to the one-character octet `0` cannot succeed (the next
pattern character would be a colon but the input continues with `0`), so
only the greedy reading is tried. -/
def matchMacTail (l : List Char) : Option (List Char × List Char) :=
  match l with
  | '0' :: '0' :: r =>
    (match macGroups 3 r with
     | some (g, r2) => some ('0' :: '0' :: g, r2)
     | none => none)
  | '0' :: r =>
    (match macGroups 3 r with
     | some (g, r2) => some ('0' :: g, r2)
     | none => none)
  | _ => none

/-- `ARP_RE.match(line)`: anchored prefix match of the neighbor-table
pattern; on success returns the `ip` and `macaddr` groups.  The leading
`\S+` consumes the maximal non-space run (a shorter run cannot be followed
by the literal space, so greediness is deterministic), and likewise
`[0-9.]+` runs to the first character outside its class. -/
def matchArpLine (l : List Char) : Option (List Char × List Char) :=
  let tok := l.takeWhile (fun c => !pyIsSpace c)
  let r1 := l.dropWhile (fun c => !pyIsSpace c)
  if tok.isEmpty then none
  else
    match r1 with
    | ' ' :: '(' :: r2 =>
      let ip := r2.takeWhile pyIsDigitDot
      let r3 := r2.dropWhile pyIsDigitDot
      if ip.isEmpty then none
      else
        match r3 with
        | ')' :: ' ' :: 'a' :: 't' :: ' ' :: r4 =>
          match octColon '0' r4 with
          | none => none
          | some (o1, r5) =>
            match octColon '8' r5 with
            | none => none
            | some (o2, r6) =>
              match matchMacTail r6 with
              | none => none
              | some (t, _) => some (ip, o1 ++ o2 ++ t)
        | _ => none
    | _ => none

/-- Validity check of `ipaddress.IPv4Address` on one dotted-quad octet:
1-3 decimal digits, value at most 255, no leading zero. -/
def pyIPv4OctetValid (p : List Char) : Bool :=
  !p.isEmpty && p.length ≤ 3
    && p.all (fun c => 48 ≤ c.toNat && c.toNat ≤ 57)
    && p.foldl (fun a c => 10 * a + (c.toNat - 48)) 0 ≤ 255
    && (p.length = 1 || p.head? ≠ some '0')

/-- Validity of `ipaddress.IPv4Address(s)`: exactly four valid octets
separated by dots.  `False` models the raised `AddressValueError`. -/
def pyIPv4AddressValid (l : List Char) : Bool :=
  let parts := pySplitChar '.' l
  parts.length = 4 && parts.all pyIPv4OctetValid

/-- Lexicographic comparison of character lists by code point — the
semantics of Python string `<=`, used by `list.sort(key=...)`. -/
def lexLeChars : List Char → List Char → Bool
  | [], _ => true
  | _ :: _, [] => false
  | a :: as, b :: bs =>
    if a.toNat < b.toNat then true
    else if b.toNat < a.toNat then false
    else lexLeChars as bs

/-- The sort key relation of `self.conduits.sort(key=lambda c: c.mac)`. -/
def macLe (a b : Conduit) : Prop := lexLeChars a.mac.data b.mac.data = true

instance : DecidableRel macLe := fun a b => by unfold macLe; infer_instance

/-- `self.conduits.sort(key=lambda conduit: conduit.mac)` (app.py line
348).  Python uses a stable sort; `insertionSort` is stable, and since the
deduplicated MAC keys are pairwise distinct any correct sort produces the
same list. -/
def sortConduits (cs : List Conduit) : List Conduit :=
  List.insertionSort macLe cs

/-- `Conduit.__init__` as called by discovery: only `ip` and `mac` are
populated (app.py lines 338-345, conduit.py lines 40-66). -/
def Conduit.mkDiscovered (ip mac : String) : Conduit :=
  { ip := ip, mac := mac }

/-- The discovery loop of `App.find_conduits` over the `arp -an` output
lines (app.py lines 328-347): match each line, canonicalize the MAC, skip
duplicates (keeping the first occurrence), construct a `Conduit` bound to
the line's IP.  `seen` models the `macaddrs` dict, `acc` the `conduits`
list.  The `.exn` cases model the unreachable `ValueError` from `int` and
the `AddressValueError` from `ipaddress.IPv4Address`, which would
propagate out of the loop. -/
def findConduitsGo (seen : List String) (acc : List Conduit) :
    List String → PyResult (List Conduit)
  | [] => .ret acc
  | line :: rest =>
    match matchArpLine line.data with
    | none => findConduitsGo seen acc rest
    | some (ip, mac) =>
      match normalizeMacChars mac with
      | none => .exn "ValueError: invalid hex literal in MAC field"
      | some m =>
        let mS := String.mk m
        if mS ∈ seen then
          findConduitsGo seen acc rest
        else if pyIPv4AddressValid ip then
          findConduitsGo (mS :: seen) (acc ++ [Conduit.mkDiscovered (String.mk ip) mS]) rest
        else
          .exn "AddressValueError: invalid IPv4 address"

/-- The parsing part of `App.find_conduits`: run the loop over the
neighbor-table lines and sort the surviving gateways by MAC (app.py lines
328-349). -/
def find_conduits_parse (lines : List String) : PyResult (List Conduit) :=
  match findConduitsGo [] [] lines with
  | .exn m => .exn m
  | .ret cs => .ret (sortConduits cs)

/-- Specification-side view of one line: the canonical `(mac, ip)` pair it
contributes, if it matches the vendor pattern. -/
def lineEntry (line : String) : Option (String × String) :=
  match matchArpLine line.data with
  | none => none
  | some (ip, mac) =>
    match normalizeMacChars mac with
    | none => none
    | some m => some (String.mk m, String.mk ip)

/-- Specification-side view of the whole neighbor table: the `(mac, ip)`
pairs of the matching lines, in table order. -/
def parsedEntries (lines : List String) : List (String × String) :=
  lines.filterMap lineEntry

/-- Specification-side deduplication by MAC, keeping the first occurrence
(and hence the first-encountered IP). -/
def dedupeFirst (seen : List String) : List (String × String) → List (String × String)
  | [] => []
  | (m, ip) :: rest =>
    if m ∈ seen then dedupeFirst seen rest
    else (m, ip) :: dedupeFirst (m :: seen) rest

-- ====================================================================
-- Gateway-user creation phase (app.py lines 416-456,
-- App.create_gateway_users_on_jumphosts)
-- ====================================================================

/-- Remote oracles for one gateway's iteration of the user-creation loop:
the answers of `create_jumphost_user`'s three remote interactions, and the
outcome of `add_gateway_user_ssh_authorization` (jumphost.py lines
167-223), summarized as one success flag. -/
structure GwEnv where
  query1 : Option Int
  useradd : Option Bool
  query2 : Option Int
  sshOk : Bool
deriving DecidableEq, Repr

/-- What happened to one gateway in the user-creation loop: its final
`Conduit` state, the value `create_jumphost_user` returned, and whether
`add_gateway_user_ssh_authorization` was invoked for it. -/
structure GwRecord where
  conduit : Conduit
  createResult : Option Int
  sshCalled : Bool
deriving DecidableEq, Repr

/-- Specification-side summary: the value `create_jumphost_user` returns
for gateway `ge` (the loop passes `username = conduit.hostname` as both
the account name and the comment, and the gateway's recorded UID as the
desired UID). -/
def createRes (j : Jumphost) (group : Option String) (ge : Conduit × GwEnv) : Option Int :=
  (j.create_jumphost_user ge.2.query1 ge.2.useradd ge.2.query2
    (ge.1.get_jumphost_userid j) ge.1.hostname ge.1.hostname group).1

/-- Specification-side summary: which gateways get the SSH-authorization
call, given the running `result` flag (`flag`): gateway `i` is authorized
exactly when the flag is still true after its own user creation succeeded;
the flag then absorbs the authorization outcome. -/
def sshCalledSpec (j : Jumphost) (group : Option String) :
    Bool → List (Conduit × GwEnv) → List Bool
  | _, [] => []
  | flag, ge :: rest =>
    let cr := (createRes j group ge).isSome
    (flag && cr) :: sshCalledSpec j group (flag && cr && ge.2.sshOk) rest

/-- The loop body of `App.create_gateway_users_on_jumphosts` (app.py lines
425-455) over the single jumphost (`App._initialize` enforces exactly one):
per gateway, call `create_jumphost_user` with the gateway's recorded UID as
the desired UID; on `None` mark the whole phase failed (and keep going); on
success record the UID via `set_jumphost_userid` (whose `Conduit.Error`
would propagate); then, only if the phase-wide `result` flag is still true,
perform the SSH authorization, folding its outcome into `result`. -/
def users_go (j : Jumphost) (group : Option String) (result : Bool) :
    List (Conduit × GwEnv) → PyResult (Bool × List GwRecord)
  | [] => .ret (result, [])
  | (c, e) :: rest =>
    let userid := c.get_jumphost_userid j
    match (j.create_jumphost_user e.query1 e.useradd e.query2
        userid c.hostname c.hostname group).1 with
    | none =>
      -- result = False; the later `if result:` block is therefore skipped
      match users_go j group false rest with
      | .ret (r, recs) => .ret (r, ⟨c, none, false⟩ :: recs)
      | .exn m => .exn m
    | some u =>
      match c.set_jumphost_userid j u with
      | .exn m => .exn m
      | .ret (_, c2) =>
        if result then
          let r2 := if e.sshOk then result else false
          match users_go j group r2 rest with
          | .ret (r, recs) => .ret (r, ⟨c2, some u, true⟩ :: recs)
          | .exn m => .exn m
        else
          match users_go j group false rest with
          | .ret (r, recs) => .ret (r, ⟨c2, some u, false⟩ :: recs)
          | .exn m => .exn m

/-- `App.create_gateway_users_on_jumphosts` (app.py lines 416-456): run the
loop with the phase `result` flag initially true. -/
def create_gateway_users_on_jumphosts (j : Jumphost) (group : Option String)
    (gws : List (Conduit × GwEnv)) : PyResult (Bool × List GwRecord) :=
  users_go j group true gws

-- ====================================================================
-- The application driver (app.py, class App): per-phase embeddings and
-- App.run (lines 475-553)
-- ====================================================================

/-- Python `str(x)` of an optional string: `None` renders as "None" inside
an f-string. -/
def pyStrOpt : Option String → String
  | none => "None"
  | some s => s

/-- ASCII lowering of one character (`str.lower` on the ASCII data that
occurs here). -/
def pyLowerChar (c : Char) : Char :=
  if 65 ≤ c.toNat && c.toNat ≤ 90 then Char.ofNat (c.toNat + 32) else c

/-- Python `s.lower()` (ASCII fragment). -/
def pyLower (s : String) : String :=
  String.mk (s.data.map pyLowerChar)

/-- Python `s.strip()` (whitespace at both ends). -/
def pyStrip (s : String) : String :=
  String.mk (((s.data.dropWhile pyIsSpace).reverse.dropWhile pyIsSpace).reverse)

/-- All remote/environment oracles one `App.run` consumes.  The app is
restricted by `App._initialize` to exactly one jumphost, so a single
`Jumphost` is carried.  Per-gateway oracles are keyed by the gateway's
canonical MAC (the identity key; MACs are pairwise distinct after
discovery). -/
structure AppEnv where
  /-- the single configured jumphost -/
  jumphost : Jumphost
  /-- outcome of `jumphost.isreachable()` (check_jumphosts, app.py 285-298) -/
  jumphost_reachable : Bool
  /-- the mass-ping `invoke.run` completing without raising (app.py 311-317) -/
  probe_ok : Bool
  /-- stdout lines of `arp -an`; `none` models the command raising (app.py 320-326) -/
  arp_lines : Option (List String)
  /-- the `--skip-if-ssh-fails` option -/
  skip_if_ssh_fails : Bool
  /-- `organization.prefix`, used to derive hostnames -/
  org_pfx : String
  /-- `organization.gateway_group` -/
  gateway_group : String
  /-- per-gateway `check_ssh_enabled` outcome -/
  ssh_ok : String → Bool
  /-- first stdout line of `mts-io-sysfs show product-id`, if it succeeded -/
  product_query : String → Option String
  /-- `settings.product_id_map` lookup (a miss raises `Conduit.Error`) -/
  product_map : String → Option ProductAttributes
  /-- first stdout line of `cat /etc/ssh/ssh_host_rsa_key.pub` -/
  hostkey_query : String → Option String
  /-- first stdout line of `mts-io-sysfs show lora/eui` -/
  lora_query : String → Option String
  /-- `getent group` finding the gateway group on the jumphost -/
  group_exists : Bool
  /-- outcome of `groupadd` when attempted -/
  groupadd_ok : Option Bool
  /-- per-gateway oracles of the user-creation phase -/
  gw_env : String → GwEnv
  /-- the fleet authorized keys loaded at startup -/
  authorized_keys : List String
  /-- the ssh_tunnel service script lines loaded at startup -/
  tunnel_script : List String
  /-- per-gateway sudo oracle for `setup_jumphost_tunnel` -/
  tunnel_env : String → Nat → Bool

/-- `App.check_jumphosts` (app.py lines 285-298): every jumphost reachable
(the app carries exactly one). -/
def check_jumphosts (env : AppEnv) : Bool :=
  env.jumphost_reachable

/-- `App.find_conduits` (app.py lines 303-349): `.ret none` models `return
False` (a probe or `arp` command raised — both `try` blocks); otherwise the
parse runs, whose own exceptions propagate. -/
def find_conduits (env : AppEnv) : PyResult (Option (List Conduit)) :=
  if !env.probe_ok then .ret none
  else
    match env.arp_lines with
    | none => .ret none
    | some lines =>
      match find_conduits_parse lines with
      | .exn m => .exn m
      | .ret cs => .ret (some cs)

/-- `Conduit.get_product_id` (conduit.py lines 92-105). -/
def get_product_id (env : AppEnv) (c : Conduit) : Bool × Conduit :=
  match env.product_query c.mac with
  | none => (false, c)
  | some pid => (true, { c with product_id := some pid })

/-- `Conduit.set_product_attributes` (conduit.py lines 110-120): raises
`Conduit.Error` when the product id (possibly `None`) is not a key of the
product map. -/
def set_product_attributes (env : AppEnv) (c : Conduit) : PyResult Conduit :=
  match c.product_id with
  | none => .exn "Conduit.Error: unknown product type"
  | some pid =>
    match env.product_map pid with
    | none => .exn "Conduit.Error: unknown product type"
    | some attrs => .ret { c with product_attributes := some attrs }

/-- The loop of `App.get_product_ids` (app.py lines 354-362): failures mark
`result = False` but the loop continues; an unknown product id raises. -/
def get_product_ids_go (env : AppEnv) (result : Bool) :
    List Conduit → PyResult (Bool × List Conduit)
  | [] => .ret (result, [])
  | c :: rest =>
    match get_product_id env c with
    | (ok, c1) =>
      if ok then
        match set_product_attributes env c1 with
        | .exn m => .exn m
        | .ret c2 =>
          match get_product_ids_go env result rest with
          | .ret (r, cs) => .ret (r, c2 :: cs)
          | .exn m => .exn m
      else
        match get_product_ids_go env false rest with
        | .ret (r, cs) => .ret (r, c1 :: cs)
        | .exn m => .exn m

/-- `App.get_product_ids` (app.py lines 354-362). -/
def get_product_ids (env : AppEnv) (cs : List Conduit) : PyResult (Bool × List Conduit) :=
  get_product_ids_go env true cs

/-- `Conduit.generate_hostname` (conduit.py lines 125-129):
`hostname = prefix + mac`; always succeeds. -/
def generate_hostname (env : AppEnv) (c : Conduit) : Conduit :=
  { c with hostname := some (env.org_pfx ++ c.mac) }

/-- `Conduit.generate_friendly_name` (conduit.py lines 134-138):
`"Multitech {product_id} {mac}"`; always succeeds. -/
def generate_friendly_name (c : Conduit) : Conduit :=
  { c with friendly_name := some ("Multitech " ++ pyStrOpt c.product_id ++ " " ++ c.mac) }

/-- `App.populate_gateway_names` (app.py lines 367-372): both derivations
always return `True`, so the phase always succeeds. -/
def populate_gateway_names (env : AppEnv) (cs : List Conduit) : Bool × List Conduit :=
  (true, cs.map (fun c => generate_friendly_name (generate_hostname env c)))

/-- The loop of `App.get_host_keys` (app.py lines 377-383) combined with
`Conduit.fetch_gateway_public_key` (conduit.py lines 143-156): the fetched
first line is stripped. -/
def get_host_keys_go (env : AppEnv) (result : Bool) : List Conduit → Bool × List Conduit
  | [] => (result, [])
  | c :: rest =>
    match env.hostkey_query c.mac with
    | none =>
      match get_host_keys_go env false rest with
      | (r, cs) => (r, c :: cs)
    | some k =>
      match get_host_keys_go env result rest with
      | (r, cs) => (r, { c with public_key := some (pyStrip k) } :: cs)

/-- `App.get_host_keys` (app.py lines 377-383). -/
def get_host_keys (env : AppEnv) (cs : List Conduit) : Bool × List Conduit :=
  get_host_keys_go env true cs

/-- The loop of `App.get_lora_eui64` (app.py lines 388-394) combined with
`Conduit.fetch_lora_eui64` (conduit.py lines 161-174): the fetched first
line is lowercased. -/
def get_lora_eui64_go (env : AppEnv) (result : Bool) : List Conduit → Bool × List Conduit
  | [] => (result, [])
  | c :: rest =>
    match env.lora_query c.mac with
    | none =>
      match get_lora_eui64_go env false rest with
      | (r, cs) => (r, c :: cs)
    | some v =>
      match get_lora_eui64_go env result rest with
      | (r, cs) => (r, { c with lora_eui64 := some (pyLower v) } :: cs)

/-- `App.get_lora_eui64` (app.py lines 388-394). -/
def get_lora_eui64 (env : AppEnv) (cs : List Conduit) : Bool × List Conduit :=
  get_lora_eui64_go env true cs

/-- `Jumphost.create_gateway_group` (jumphost.py lines 94-109): a no-op
when the group exists; otherwise one `groupadd` whose failure (or
catastrophic `None` answer) yields `False`. -/
def create_gateway_group (group : String) (group_exists : Bool) (groupadd : Option Bool) :
    Bool × List RCmd :=
  if group_exists then (true, [])
  else
    match groupadd with
    | none => (false, [.groupaddCmd group])
    | some ok => (ok, [.groupaddCmd group])

/-- `App.create_gateway_groups_on_jumphosts` (app.py lines 399-411) over
the single jumphost. -/
def create_gateway_groups_on_jumphosts (env : AppEnv) : Bool :=
  (create_gateway_group env.gateway_group env.group_exists env.groupadd_ok).1

/-- `App.create_gateway_users_on_jumphosts` at the app level: pair each
gateway with its oracles. -/
def app_create_gateway_users (env : AppEnv) (cs : List Conduit) :
    PyResult (Bool × List GwRecord) :=
  create_gateway_users_on_jumphosts env.jumphost (some env.gateway_group)
    (cs.map (fun c => (c, env.gw_env c.mac)))

-- ====================================================================
-- Concrete objects used by witnesses and counterexamples
-- ====================================================================

/-- A jumphost whose configured attributes carry `first_uid = 30000` and
`first_keepalive = 50000` (legal per `settings.py`, which lets the
settings file override both). -/
def jumphostConfigured30000 : Jumphost :=
  Jumphost.init
    { description := "test jumphost"
      username := "ops"
      hostname := "jump.example.org"
      port := 22
      first_uid := 30000
      first_keepalive := 50000 }

/-- A jumphost built from the default attribute values used by
`App._validateArgs`. -/
def jumphostDefault : Jumphost :=
  Jumphost.init
    { description := "default jumphost"
      username := "ops"
      hostname := "jump.example.org"
      port := 22
      first_uid := Constants.JUMPHOST_FIRST_UID
      first_keepalive := Constants.JUMPHOST_FIRST_KEEPALIVE }

/-- A gateway that has been assigned jumphost UID 20007. -/
def conduitUid20007 : Conduit :=
  { ip := "192.168.12.5"
    mac := "00-08-00-aa-bb-cc"
    jumphost_userid := some 20007 }

/-- A freshly discovered gateway: no UID recorded yet. -/
def conduitFresh : Conduit :=
  { ip := "192.168.12.6"
    mac := "00-08-00-aa-bb-cd" }

-- ====================================================================
-- Tunnel provisioning (conduit.py lines 208-338, conduit_ssh.py lines
-- 81-97)
--
-- `ConduitSsh.sudo` (conduit_ssh.py lines 81-97) is annotated `-> bool`
-- and literally returns `True` or `False`; it never returns a fabric
-- `Result`.  Every one of its call sites in conduit.py nevertheless goes
-- on to evaluate `answer.ok` on the returned value (the preceding
-- `answer == None` guard is False on a bool), so each of these helpers
-- raises AttributeError as soon as it consults its first answer,
-- whatever that answer was.  The oracle `env : Nat → Bool` supplies the
-- bool `sudo` returns for the i-th issued command; every issued command
-- is appended to the trace.
-- ====================================================================

/-- Issue one `ConduitSsh.sudo` command: record it in the trace and return
the bare bool the oracle supplies (conduit_ssh.py lines 81-97). -/
def sudoStep (env : Nat → Bool) (tr : List RCmd) (c : RCmd) : Bool × List RCmd :=
  (env tr.length, tr ++ [c])

/-- The message of the AttributeError that reading `.ok` off a bare bool
raises. -/
def attrErrBoolOk : String := "AttributeError: bool object has no attribute ok"

/-- `Conduit.set_date_using_ntp` (conduit.py lines 210-215): issues
`ntpdate -ub pool.ntp.org` through `ConduitSsh.sudo` and receives a bare
bool; `answer == None` (line 213) is False on a bool, and `return
answer.ok` (line 215) then raises AttributeError — on every call, whether
the command succeeded or failed.  The function can never return, so the
embedding yields the exception message together with the issued-command
trace. -/
def Conduit.set_date_using_ntp (_c : Conduit) (env : Nat → Bool) (tr : List RCmd) :
    String × List RCmd :=
  let s := sudoStep env tr .ntpdateCmd
  (attrErrBoolOk, s.2)

/-- `Conduit.mkdir` (conduit.py lines 217-232): issues `mkdir -p -m %o
<path>` and receives a bare bool; the guard `answer == None or not
answer.ok` (line 221) raises AttributeError at `answer.ok` on every call,
so the function raises after its first command and never reaches its
`chmod` or `chown`.  (It is in fact unreachable: `setup_jumphost_tunnel`
raises at the NTP step before its first `mkdir` call.) -/
def Conduit.mkdir (_c : Conduit) (env : Nat → Bool) (tr : List RCmd)
    (mode : Nat) (path : String) : PyResult Bool × List RCmd :=
  let s := sudoStep env tr (.mkdirCmd mode path)
  (.exn attrErrBoolOk, s.2)

/-- `Conduit.setup_jumphost_tunnel` (conduit.py lines 248-338): its first
statement (line 249) calls `set_date_using_ntp` inside an `if` condition;
the AttributeError raised there propagates before the test is made, so on
every input the function raises after issuing exactly the `ntpdate`
command.  The directory creations of lines 252-259 (mode literals `0o755`,
`0o700` and the hexadecimal `0x700`) and everything after them are
unreachable. -/
def Conduit.setup_jumphost_tunnel (c : Conduit) (_jumphost : Jumphost)
    (_authorized_keys : List String) (_ssh_tunnel_script : List String)
    (env : Nat → Bool) : PyResult Bool × List RCmd :=
  let s := c.set_date_using_ntp env []
  (.exn s.1, s.2)

/-- The `(mode, path)` arguments carried by a `mkdir` command, if any. -/
def mkdirArg : RCmd → Option (Nat × String)
  | .mkdirCmd mode path => some (mode, path)
  | _ => none

/-- The `(mode, path)` arguments of the `mkdir` invocations in a trace. -/
def mkdirCalls (tr : List RCmd) : List (Nat × String) :=
  tr.filterMap mkdirArg

/-- A sample `arp -an` output: two distinct vendor MACs, a duplicate of one
of them at a different IP, a non-vendor MAC, and a non-matching line. -/
def arpLinesExample : List String :=
  ["? (192.168.12.7) at 00:08:00:cc:00:01 [ether] on eth0",
   "? (192.168.12.5) at 00:08:00:aa:bb:cc [ether] on eth0",
   "? (192.168.12.9) at 00:08:00:aa:bb:cc [ether] on eth0",
   "? (192.168.12.1) at a4:5e:60:11:22:33 [ether] on eth0",
   "garbage"]

/-- The gateways discovery yields on `arpLinesExample`: deduplicated by MAC
(first IP kept) and sorted ascending by canonical MAC. -/
def discoveredExample : List Conduit :=
  [Conduit.mkDiscovered "192.168.12.5" "00-08-00-aa-bb-cc",
   Conduit.mkDiscovered "192.168.12.7" "00-08-00-cc-00-01"]

/-- A gateway that already carries UID 5002 while the jumphost account
exists with UID 5001: `create_jumphost_user` reports a conflict. -/
def conduitConflict : Conduit :=
  { ip := "192.168.12.5"
    mac := "00-08-00-aa-bb-cc"
    hostname := some "ttn-nyc-00-08-00-aa-bb-cc"
    jumphost_userid := some 5002 }

/-- Oracles for `conduitConflict`: the account exists remotely with UID
5001; SSH authorization would succeed if attempted. -/
def gwEnvConflict : GwEnv :=
  { query1 := some 5001, useradd := none, query2 := none, sshOk := true }

/-- A second, healthy gateway processed after the conflicting one. -/
def conduitSecond : Conduit :=
  { ip := "192.168.12.7"
    mac := "00-08-00-cc-00-01"
    hostname := some "ttn-nyc-00-08-00-cc-00-01" }

/-- Oracles for `conduitSecond`: its account already exists with UID 7000;
SSH authorization would succeed if attempted. -/
def gwEnvSecond : GwEnv :=
  { query1 := some 7000, useradd := none, query2 := none, sshOk := true }

/-- The loop of `App.setup_jumphost_tunnels_on_gateways` (app.py lines
459-470): a `False` answer would mark the phase failed with the loop
continuing, and a raise propagates — and since `setup_jumphost_tunnel`
raises AttributeError on every call, the phase raises whenever at least
one gateway reaches it and returns `True` only over the empty list. -/
def setup_tunnels_go (env : AppEnv) (result : Bool) : List Conduit → PyResult Bool
  | [] => .ret result
  | c :: rest =>
    match (c.setup_jumphost_tunnel env.jumphost env.authorized_keys env.tunnel_script
        (env.tunnel_env c.mac)).1 with
    | .exn m => .exn m
    | .ret ok => setup_tunnels_go env (if ok then result else false) rest

/-- `App.setup_jumphost_tunnels_on_gateways` (app.py lines 459-470). -/
def setup_jumphost_tunnels_on_gateways (env : AppEnv) (cs : List Conduit) : PyResult Bool :=
  setup_tunnels_go env true cs

/-- The SSH reachability gate of `App.run` (app.py lines 489-515): classify
the discovered gateways by `check_ssh_enabled`; with unreachable gateways
present, abort (`none`, the code returns 1) unless the skip option is set
and at least one gateway survives, in which case `self.conduits` is
replaced by the reachable ones. -/
def sshGate (env : AppEnv) (conduits : List Conduit) : Option (List Conduit) :=
  let no_ssh := conduits.filter (fun c => !env.ssh_ok c.mac)
  let good_ssh := conduits.filter (fun c => env.ssh_ok c.mac)
  if no_ssh.length > 0 then
    if !env.skip_if_ssh_fails then none
    else if good_ssh.length = 0 then none
    else some good_ssh
  else some conduits

/-- `App.run` (app.py lines 475-553).  Each failing phase returns exit code
1; `.ret 0` only falls out of the bottom. -/
def appRun (env : AppEnv) : PyResult Nat :=
  if !check_jumphosts env then .ret 1
  else
    match find_conduits env with
    | .exn m => .exn m
    | .ret none => .ret 1
    | .ret (some conduits) =>
      match sshGate env conduits with
      | none => .ret 1
      | some cs0 =>
        match get_product_ids env cs0 with
        | .exn m => .exn m
        | .ret (ok1, cs1) =>
          if !ok1 then .ret 1
          else
            match populate_gateway_names env cs1 with
            | (ok2, cs2) =>
              if !ok2 then .ret 1
              else
                match get_host_keys env cs2 with
                | (ok3, cs3) =>
                  if !ok3 then .ret 1
                  else
                    match get_lora_eui64 env cs3 with
                    | (ok4, cs4) =>
                      if !ok4 then .ret 1
                      else
                        if !create_gateway_groups_on_jumphosts env then .ret 1
                        else
                          match app_create_gateway_users env cs4 with
                          | .exn m => .exn m
                          | .ret (ok5, recs) =>
                            if !ok5 then .ret 1
                            else
                              match setup_jumphost_tunnels_on_gateways env
                                  (recs.map GwRecord.conduit) with
                              | .exn m => .exn m
                              | .ret ok6 =>
                                if !ok6 then .ret 1 else .ret 0

/-- An environment whose neighbor table contains no vendor-prefix MAC at
all: discovery parses zero gateways, every fleet-level phase succeeds
trivially. -/
def appEnvNoConduits : AppEnv :=
  { jumphost := jumphostDefault
    jumphost_reachable := true
    probe_ok := true
    arp_lines := some ["no gateways on this segment"]
    skip_if_ssh_fails := false
    org_pfx := "ttn-nyc-"
    gateway_group := "ttn-nyc-gateways"
    ssh_ok := fun _ => true
    product_query := fun _ => some "MTCDT-L4N1-247A"
    product_map := fun _ => some { device_type := "Conduit", device_class := "gateway", has_cellular := false }
    hostkey_query := fun _ => some "ssh-rsa AAAATESTKEY root@gateway"
    lora_query := fun _ => some "00-80-00-00-D0-00-01-AB"
    group_exists := true
    groupadd_ok := none
    gw_env := fun _ => { query1 := some 20000, useradd := none, query2 := none, sshOk := true }
    authorized_keys := []
    tunnel_script := []
    tunnel_env := fun _ _ => true }

/-- The same environment with the mass-ping probe failing. -/
def appEnvProbeFail : AppEnv :=
  { appEnvNoConduits with probe_ok := false }

-- ====================================================================
-- Theorems
-- ====================================================================

/-- C1: when the account `gateway_id` already exists on the jumphost with
UID `u` (initial `getent passwd` answer `some u`), `create_jumphost_user`
returns `none` and issues no mutating remote command if a different
`desired_uid` was requested, and returns `u` with no creation command if
`desired_uid` is absent or equal (idempotent success). -/
theorem C1_create_jumphost_user_existing_account (j : Jumphost)
    (ua : Option Bool) (q2 : Option Int) (u : Int) (d : Option Int)
    (name id group : Option String) :
    (∀ dv : Int, d = some dv → dv ≠ u →
      j.create_jumphost_user (some u) ua q2 d name id group = (none, [])) ∧
    (d = none ∨ d = some u →
      j.create_jumphost_user (some u) ua q2 d name id group = (some u, [])) := by
  constructor
  · intro dv hd hne
    subst hd
    simp [Jumphost.create_jumphost_user, Ne.symm hne]
  · rintro (hd | hd) <;> subst hd <;> simp [Jumphost.create_jumphost_user]

/-- Witness for C1: conflict case (existing UID 5001, desired 5002) and
idempotent cases (no desired UID; matching desired UID) at concrete
inputs. -/
theorem C1_create_jumphost_user_existing_account_witness :
    jumphostDefault.create_jumphost_user (some 5001) none none (some 5002)
      (some "gw") (some "gw") (some "ttn-nyc-gateways") = (none, []) ∧
    jumphostDefault.create_jumphost_user (some 5001) none none none
      (some "gw") (some "gw") (some "ttn-nyc-gateways") = (some 5001, []) ∧
    jumphostDefault.create_jumphost_user (some 5001) none none (some 5001)
      (some "gw") (some "gw") (some "ttn-nyc-gateways") = (some 5001, []) :=
  ⟨(C1_create_jumphost_user_existing_account jumphostDefault none none 5001 (some 5002)
      (some "gw") (some "gw") (some "ttn-nyc-gateways")).1 5002 rfl (by decide),
   (C1_create_jumphost_user_existing_account jumphostDefault none none 5001 none
      (some "gw") (some "gw") (some "ttn-nyc-gateways")).2 (Or.inl rfl),
   (C1_create_jumphost_user_existing_account jumphostDefault none none 5001 (some 5001)
      (some "gw") (some "gw") (some "ttn-nyc-gateways")).2 (Or.inr rfl)⟩

/-- C2 counterexample: the claim ties the port formulas to the jumphost's
CONFIGURED attributes (`firstUid F`, `firstKeepaliveBase K`), but
`Jumphost.__init__` assigns `self.first_uid` / `self.first_keepalive` from
the global `Constants`, ignoring the configured attribute values.  With
configured `first_uid = 30000`, `first_keepalive = 50000` and assigned UID
20007, the code yields keepalive port 40014, not
`(20007 - 30000) * 2 + 50000 = 30014`. -/
theorem C2_ports_counterexample :
    conduitUid20007.get_jumphost_keepalive jumphostConfigured30000 = .ret 40014 ∧
    jumphostConfigured30000.attr.first_uid = 30000 ∧
    jumphostConfigured30000.attr.first_keepalive = 50000 ∧
    (20007 - jumphostConfigured30000.attr.first_uid) * 2 +
      jumphostConfigured30000.attr.first_keepalive = 30014 ∧
    (40014 : Int) ≠ 30014 := by
  refine ⟨rfl, rfl, rfl, by decide, by decide⟩

/-- C2 (amended): for every gateway with assigned UID `u` and every jumphost
built by `Jumphost.__init__`, the reverse-tunnel port is `u` and the
keepalive port is `(u - first_uid) * 2 + first_keepalive` computed from the
jumphost OBJECT fields — which are always the global constants 20000 and
40000, regardless of the configured attributes.  Both ports are pure
functions of `(u, first_uid, first_keepalive)`. -/
theorem C2_ports_pure_functions_of_object_fields (attr : JumphostAttributes)
    (c : Conduit) (u : Int) (h : c.jumphost_userid = some u) :
    c.get_jumphost_reverse_socket (Jumphost.init attr) = some u ∧
    c.get_jumphost_keepalive (Jumphost.init attr) =
      .ret ((u - (Jumphost.init attr).first_uid) * 2 + (Jumphost.init attr).first_keepalive) ∧
    (Jumphost.init attr).first_uid = 20000 ∧
    (Jumphost.init attr).first_keepalive = 40000 := by
  refine ⟨?_, ?_, rfl, rfl⟩
  · simp [Conduit.get_jumphost_reverse_socket, Conduit.get_jumphost_userid, h]
  · simp [Conduit.get_jumphost_keepalive, Conduit.get_jumphost_userid, h]

/-- Witness for C2 (amended): with the default-configured jumphost and UID
20007 the ports are 20007 and `(20007 - 20000) * 2 + 40000 = 40014`,
matching the spec test point. -/
theorem C2_ports_pure_functions_of_object_fields_witness :
    conduitUid20007.get_jumphost_reverse_socket jumphostDefault = some 20007 ∧
    conduitUid20007.get_jumphost_keepalive jumphostDefault =
      .ret ((20007 - jumphostDefault.first_uid) * 2 + jumphostDefault.first_keepalive) ∧
    jumphostDefault.first_uid = 20000 ∧
    jumphostDefault.first_keepalive = 40000 :=
  C2_ports_pure_functions_of_object_fields
    { description := "default jumphost"
      username := "ops"
      hostname := "jump.example.org"
      port := 22
      first_uid := Constants.JUMPHOST_FIRST_UID
      first_keepalive := Constants.JUMPHOST_FIRST_KEEPALIVE }
    conduitUid20007 20007 rfl

/-- C7: a gateway's jumphost UID is immutable once set.
`set_jumphost_userid` returns `True` (recording the UID) when no UID is
recorded; returns `True` without change when called with the recorded
value; raises `Conduit.Error` when called with a different value; and no
successful call ever changes an already-recorded UID. -/
theorem C7_set_jumphost_userid_immutable (c : Conduit) (j : Jumphost) (u : Int) :
    (c.jumphost_userid = none →
      c.set_jumphost_userid j u = .ret (true, { c with jumphost_userid := some u })) ∧
    (∀ v : Int, c.jumphost_userid = some v → u = v →
      c.set_jumphost_userid j u = .ret (true, c)) ∧
    (∀ v : Int, c.jumphost_userid = some v → u ≠ v →
      ∃ msg, c.set_jumphost_userid j u = .exn msg) ∧
    (∀ (b : Bool) (c2 : Conduit), c.set_jumphost_userid j u = .ret (b, c2) →
      ∀ v : Int, c.jumphost_userid = some v → c2.jumphost_userid = some v) := by
  refine ⟨?_, ?_, ?_, ?_⟩
  · intro h
    simp [Conduit.set_jumphost_userid, h]
  · intro v hv he
    subst he
    simp [Conduit.set_jumphost_userid, hv]
  · intro v hv hne
    exact ⟨"Conduit.Error: cannot change jumphost_userid to a different value",
      by simp [Conduit.set_jumphost_userid, hv, hne]⟩
  · intro b c2 hret v hv
    rw [Conduit.set_jumphost_userid, hv] at hret
    by_cases he : u = v
    · simp [he] at hret
      rw [← hret.2, hv]
    · simp [he] at hret

/-- Witness for C7: recording 20007 into a fresh gateway succeeds; repeating
with the same value succeeds and leaves the state unchanged; a different
value raises. -/
theorem C7_set_jumphost_userid_immutable_witness :
    conduitFresh.set_jumphost_userid jumphostDefault 20007 =
      .ret (true, { conduitFresh with jumphost_userid := some 20007 }) ∧
    conduitUid20007.set_jumphost_userid jumphostDefault 20007 = .ret (true, conduitUid20007) ∧
    (∃ msg, conduitUid20007.set_jumphost_userid jumphostDefault 20008 = .exn msg) :=
  ⟨(C7_set_jumphost_userid_immutable conduitFresh jumphostDefault 20007).1 rfl,
   (C7_set_jumphost_userid_immutable conduitUid20007 jumphostDefault 20007).2.1 20007 rfl rfl,
   (C7_set_jumphost_userid_immutable conduitUid20007 jumphostDefault 20008).2.2.1 20007 rfl
     (by decide)⟩

/-- C9: when `jumphost_userid` was never set, `get_jumphost_keepalive`
raises (`None - int` is a `TypeError`); it neither returns `None` nor a
port number, despite the declared `int | None` return annotation. -/
theorem C9_keepalive_raises_when_uid_unset (c : Conduit) (j : Jumphost)
    (h : c.jumphost_userid = none) :
    (∃ msg, c.get_jumphost_keepalive j = .exn msg) ∧
    (∀ p : Int, c.get_jumphost_keepalive j ≠ .ret p) := by
  constructor
  · rw [Conduit.get_jumphost_keepalive, Conduit.get_jumphost_userid, h]
    exact ⟨_, rfl⟩
  · intro p
    simp [Conduit.get_jumphost_keepalive, Conduit.get_jumphost_userid, h]

/-- Witness for C9: a freshly discovered gateway (UID unset) makes
`get_jumphost_keepalive` raise. -/
theorem C9_keepalive_raises_when_uid_unset_witness :
    (∃ msg, conduitFresh.get_jumphost_keepalive jumphostDefault = .exn msg) ∧
    (∀ p : Int, conduitFresh.get_jumphost_keepalive jumphostDefault ≠ .ret p) :=
  C9_keepalive_raises_when_uid_unset conduitFresh jumphostDefault rfl

-- ====================================================================
-- Helper lemmas about the normalization building blocks
-- ====================================================================

/-- Every character produced by `Nat.toDigitsCore` is either from the
accumulator or a digit character of the base. -/
theorem toDigitsCore_mem (b : Nat) (hb : 0 < b) :
    ∀ (f n : Nat) (acc : List Char), ∀ c ∈ Nat.toDigitsCore b f n acc,
      c ∈ acc ∨ ∃ m : Nat, m < b ∧ c = Nat.digitChar m := by
  intro f
  induction f with
  | zero => intro n acc c hc; exact Or.inl hc
  | succ f ih =>
    intro n acc c hc
    simp only [Nat.toDigitsCore] at hc
    by_cases h0 : n / b = 0
    · rw [if_pos h0] at hc
      rcases List.mem_cons.mp hc with hd | ha
      · exact Or.inr ⟨n % b, Nat.mod_lt n hb, hd⟩
      · exact Or.inl ha
    · rw [if_neg h0] at hc
      rcases ih (n / b) (Nat.digitChar (n % b) :: acc) c hc with hacc | hdig
      · rcases List.mem_cons.mp hacc with hd | ha
        · exact Or.inr ⟨n % b, Nat.mod_lt n hb, hd⟩
        · exact Or.inl ha
      · exact Or.inr hdig

/-- Every character of the `%02x` rendering is an ASCII hex digit. -/
theorem pyFormat02x_hex (n : Nat) : ∀ c ∈ pyFormat02x n, pyIsHexDigit c := by
  intro c hc
  have base : ∀ c2 ∈ Nat.toDigits 16 n, pyIsHexDigit c2 := by
    intro c2 hc2
    rcases toDigitsCore_mem 16 (by decide) (n + 1) n [] c2 hc2 with h | ⟨m, hm, rfl⟩
    · simp at h
    · interval_cases m <;> decide
  unfold pyFormat02x at hc
  by_cases hlen : (Nat.toDigits 16 n).length < 2
  · rw [if_pos hlen] at hc
    rcases List.mem_cons.mp hc with rfl | h
    · decide
    · exact base c h
  · rw [if_neg hlen] at hc
    exact base c hc

/-- An ASCII hex digit is neither a colon nor a hyphen. -/
theorem pyIsHexDigit_ne_colon_dash (c : Char) (h : pyIsHexDigit c) : c ≠ ':' ∧ c ≠ '-' := by
  constructor <;> rintro rfl <;> exact absurd h (by decide)

/-- Splitting a string that contains no separator yields the single whole
field. -/
theorem pySplitChar_no_sep (sep : Char) (l : List Char) (h : ∀ c ∈ l, c ≠ sep) :
    pySplitChar sep l = [l] := by
  induction l with
  | nil => rfl
  | cons c rest ih =>
    have hc : c ≠ sep := h c (List.mem_cons_self c rest)
    have hrest : pySplitChar sep rest = [rest] :=
      ih (fun x hx => h x (List.mem_cons_of_mem c hx))
    simp [pySplitChar, hc, hrest]

/-- Characters of a hyphen-join come from the parts or are the hyphen. -/
theorem pyJoinHyphen_mem (ls : List (List Char)) (c : Char) (hc : c ∈ pyJoinHyphen ls) :
    (∃ p ∈ ls, c ∈ p) ∨ c = '-' := by
  induction ls with
  | nil => simp [pyJoinHyphen] at hc
  | cons p ps ih =>
    cases ps with
    | nil =>
      simp only [pyJoinHyphen] at hc
      exact Or.inl ⟨p, List.mem_cons_self p [], hc⟩
    | cons q qs =>
      simp only [pyJoinHyphen] at hc
      rcases List.mem_append.mp hc with hp | hrest
      · exact Or.inl ⟨p, List.mem_cons_self p _, hp⟩
      · rcases List.mem_cons.mp hrest with rfl | hj
        · exact Or.inr rfl
        · rcases ih hj with ⟨r, hr, hcr⟩ | hd
          · exact Or.inl ⟨r, List.mem_cons_of_mem p hr, hcr⟩
          · exact Or.inr hd

/-- A join of at least two parts contains a hyphen. -/
theorem dash_mem_pyJoinHyphen (a b : List Char) (rest : List (List Char)) :
    '-' ∈ pyJoinHyphen (a :: b :: rest) := by
  simp [pyJoinHyphen]

/-- When every field is a non-empty run of hex digits, the int-parsing pass
succeeds, producing one value per field. -/
theorem mapIntHex_some_of (parts : List (List Char))
    (h : ∀ p ∈ parts, p ≠ [] ∧ ∀ c ∈ p, pyIsHexDigit c) :
    ∃ ns, mapIntHex parts = some ns ∧ ns.length = parts.length := by
  induction parts with
  | nil => exact ⟨[], rfl, rfl⟩
  | cons p ps ih =>
    obtain ⟨hne, hhex⟩ := h p (List.mem_cons_self p ps)
    have hp : pyIntHexChars p = some (p.foldl (fun a c => 16 * a + hexVal c) 0) := by
      have h1 : p.isEmpty = false := by
        cases p
        · exact absurd rfl hne
        · rfl
      have h2 : p.all pyIsHexDigit = true := List.all_eq_true.mpr hhex
      simp [pyIntHexChars, h1, h2]
    obtain ⟨ns, hns, hlen⟩ := ih (fun q hq => h q (List.mem_cons_of_mem p hq))
    refine ⟨p.foldl (fun a c => 16 * a + hexVal c) 0 :: ns, ?_, ?_⟩
    · simp [mapIntHex, hp, hns]
    · simp [hlen]

/-- Parsing a field that contains a hyphen raises. -/
theorem pyIntHexChars_none_of_dash (l : List Char) (h : '-' ∈ l) :
    pyIntHexChars l = none := by
  have h1 : l.isEmpty = false := by
    cases l
    · simp at h
    · rfl
  have h2 : l.all pyIsHexDigit = false := by
    rw [Bool.eq_false_iff]
    intro hall
    exact absurd (List.all_eq_true.mp hall '-' h) (by decide)
  simp [pyIntHexChars, h1, h2]

/-- C5 counterexample: the canonical output of one normalization is
hyphen-joined, so a second application splits on the (absent) colon and
then fails to parse the hyphenated field as hex (a `ValueError`), instead
of returning the string unchanged.  Claimed idempotence fails at the
colon-separated MAC `00:08:00:AA:bb:cc`. -/
theorem C5_normalize_counterexample :
    normalizeMac "00:08:00:AA:bb:cc" = some "00-08-00-aa-bb-cc" ∧
    normalizeMac "00-08-00-aa-bb-cc" = none ∧
    (normalizeMac "00:08:00:AA:bb:cc").bind normalizeMac ≠
      normalizeMac "00:08:00:AA:bb:cc" := by
  refine ⟨by decide, by decide, by decide⟩

/-- C5 (amended): on every colon-separated, case-insensitive hex MAC string
with at least two octet fields, one application of the discovery engine's
normalization succeeds, and applying it again to the result raises
(returns `none`) rather than returning the result unchanged: the
canonicalization is NOT idempotent, because it splits on `:` but joins
with `-`. -/
theorem C5_normalize_not_idempotent (s : String)
    (hlen : 2 ≤ (pySplitChar ':' s.data).length)
    (hok : ∀ p ∈ pySplitChar ':' s.data, p ≠ [] ∧ ∀ c ∈ p, pyIsHexDigit c) :
    ∃ y : String, normalizeMac s = some y ∧ normalizeMac y = none := by
  obtain ⟨ns, hns, hlens⟩ := mapIntHex_some_of _ hok
  refine ⟨String.mk (pyJoinHyphen (ns.map pyFormat02x)), ?_, ?_⟩
  · simp [normalizeMac, normalizeMacChars, hns]
  · have hnosep : ∀ c ∈ pyJoinHyphen (ns.map pyFormat02x), c ≠ ':' := by
      intro c hc
      rcases pyJoinHyphen_mem _ c hc with ⟨p, hp, hcp⟩ | hdash
      · obtain ⟨m, _, rfl⟩ := List.mem_map.mp hp
        exact (pyIsHexDigit_ne_colon_dash c (pyFormat02x_hex m c hcp)).1
      · subst hdash; decide
    have hsplit : pySplitChar ':' (pyJoinHyphen (ns.map pyFormat02x)) =
        [pyJoinHyphen (ns.map pyFormat02x)] := pySplitChar_no_sep _ _ hnosep
    have hdash : '-' ∈ pyJoinHyphen (ns.map pyFormat02x) := by
      have h2 : 2 ≤ (ns.map pyFormat02x).length := by
        rw [List.length_map, hlens]
        exact hlen
      rcases hl : ns.map pyFormat02x with _ | ⟨a, tail⟩
      · rw [hl] at h2; simp at h2
      · rcases ht : tail with _ | ⟨b, rest⟩
        · rw [hl, ht] at h2; simp at h2
        · exact dash_mem_pyJoinHyphen a b rest
    have hfail : pyIntHexChars (pyJoinHyphen (ns.map pyFormat02x)) = none :=
      pyIntHexChars_none_of_dash _ hdash
    simp [normalizeMac, normalizeMacChars, hsplit, mapIntHex, hfail]

/-- Witness for C5 (amended): at the concrete MAC `00:08:00:aa:bb:cc`. -/
theorem C5_normalize_not_idempotent_witness :
    ∃ y : String, normalizeMac "00:08:00:aa:bb:cc" = some y ∧ normalizeMac y = none :=
  C5_normalize_not_idempotent "00:08:00:aa:bb:cc" (by decide) (by decide)

-- ====================================================================
-- Helper lemmas for discovery (deduplication, ordering)
-- ====================================================================

/-- The code-point comparison is total. -/
theorem lexLeChars_total (a b : List Char) : lexLeChars a b || lexLeChars b a := by
  induction a generalizing b with
  | nil => simp [lexLeChars]
  | cons x xs ih =>
    cases b with
    | nil => simp [lexLeChars]
    | cons y ys =>
      simp only [lexLeChars]
      rcases Nat.lt_trichotomy x.toNat y.toNat with h | h | h
      · simp [h]
      · simp [h, Nat.lt_irrefl, ih]
      · simp [h, Nat.lt_asymm h]

/-- The code-point comparison is transitive. -/
theorem lexLeChars_trans : ∀ (a b c : List Char),
    lexLeChars a b → lexLeChars b c → lexLeChars a c
  | [], _, _, _, _ => by simp [lexLeChars]
  | _ :: _, [], _, h1, _ => by simp [lexLeChars] at h1
  | _ :: _, _ :: _, [], _, h2 => by simp [lexLeChars] at h2
  | x :: xs, y :: ys, z :: zs, h1, h2 => by
    simp only [lexLeChars] at h1 h2 ⊢
    split_ifs at h1 h2 ⊢ <;>
      first
        | rfl
        | omega
        | (exact lexLeChars_trans xs ys zs h1 h2)
        | simp_all

/-- The sorting pass produces a list sorted by the MAC key. -/
theorem sortConduits_sorted (cs : List Conduit) : List.Sorted macLe (sortConduits cs) := by
  haveI : IsTotal Conduit macLe := ⟨fun a b => by
    rcases Bool.or_eq_true_iff.mp (lexLeChars_total a.mac.data b.mac.data) with h | h
    · exact Or.inl h
    · exact Or.inr h⟩
  haveI : IsTrans Conduit macLe := ⟨fun a b c h1 h2 => lexLeChars_trans _ _ _ h1 h2⟩
  exact List.sorted_insertionSort macLe cs

/-- The sorting pass permutes the gateway list. -/
theorem sortConduits_perm (cs : List Conduit) : (sortConduits cs).Perm cs :=
  List.perm_insertionSort macLe cs

/-- Every surviving entry has a MAC outside the seen set. -/
theorem dedupeFirst_fst_not_mem (entries : List (String × String)) :
    ∀ seen, ∀ e ∈ dedupeFirst seen entries, e.1 ∉ seen := by
  induction entries with
  | nil => intro seen e he; simp [dedupeFirst] at he
  | cons x rest ih =>
    intro seen e he
    obtain ⟨m, ip⟩ := x
    simp only [dedupeFirst] at he
    by_cases hm : m ∈ seen
    · rw [if_pos hm] at he
      exact ih seen e he
    · rw [if_neg hm] at he
      rcases List.mem_cons.mp he with rfl | he2
      · exact hm
      · intro hc
        exact (ih (m :: seen) e he2) (List.mem_cons_of_mem m hc)

/-- Deduplication produces pairwise distinct MACs. -/
theorem dedupeFirst_nodup (entries : List (String × String)) :
    ∀ seen, ((dedupeFirst seen entries).map Prod.fst).Nodup := by
  induction entries with
  | nil => intro seen; simp [dedupeFirst]
  | cons x rest ih =>
    intro seen
    obtain ⟨m, ip⟩ := x
    simp only [dedupeFirst]
    by_cases hm : m ∈ seen
    · rw [if_pos hm]
      exact ih seen
    · rw [if_neg hm]
      simp only [List.map_cons]
      refine List.nodup_cons.mpr ⟨?_, ih (m :: seen)⟩
      intro hmem
      obtain ⟨e, he, heq⟩ := List.mem_map.mp hmem
      exact (dedupeFirst_fst_not_mem rest (m :: seen) e he)
        (by rw [heq]; exact List.mem_cons_self m seen)

/-- Every surviving entry is the FIRST entry of the input with its MAC: the
survivor keeps the first-encountered IP. -/
theorem dedupeFirst_find (entries : List (String × String)) :
    ∀ seen, ∀ e ∈ dedupeFirst seen entries,
      entries.find? (fun x => x.1 == e.1) = some e := by
  induction entries with
  | nil => intro seen e he; simp [dedupeFirst] at he
  | cons x rest ih =>
    intro seen e he
    obtain ⟨m, ip⟩ := x
    simp only [dedupeFirst] at he
    by_cases hm : m ∈ seen
    · rw [if_pos hm] at he
      have hne : ¬ ((m, ip).1 == e.1) = true := by
        simp only [beq_iff_eq]
        intro hc
        exact (dedupeFirst_fst_not_mem rest seen e he) (hc ▸ hm)
      rw [@List.find?_cons_of_neg _ (fun x => x.1 == e.1) (m, ip) rest hne]
      exact ih seen e he
    · rw [if_neg hm] at he
      rcases List.mem_cons.mp he with rfl | he2
      · exact List.find?_cons_of_pos _ (by simp)
      · have hne : ¬ ((m, ip).1 == e.1) = true := by
          simp only [beq_iff_eq]
          intro hc
          exact (dedupeFirst_fst_not_mem rest (m :: seen) e he2)
            (by rw [← hc]; exact List.mem_cons_self m seen)
        rw [@List.find?_cons_of_neg _ (fun x => x.1 == e.1) (m, ip) rest hne]
        exact ih (m :: seen) e he2

/-- Every input entry whose MAC is not already seen is represented among
the survivors. -/
theorem dedupeFirst_covers (entries : List (String × String)) :
    ∀ seen, ∀ x ∈ entries, x.1 ∉ seen →
      ∃ e ∈ dedupeFirst seen entries, e.1 = x.1 := by
  induction entries with
  | nil => intro seen x hx; simp at hx
  | cons y rest ih =>
    intro seen x hx hns
    obtain ⟨m, ip⟩ := y
    simp only [dedupeFirst]
    by_cases hm : m ∈ seen
    · rw [if_pos hm]
      rcases List.mem_cons.mp hx with rfl | hx2
      · exact absurd hm hns
      · exact ih seen x hx2 hns
    · rw [if_neg hm]
      by_cases hxm : x.1 = m
      · exact ⟨(m, ip), List.mem_cons_self _ _, hxm.symm⟩
      · rcases List.mem_cons.mp hx with rfl | hx2
        · exact absurd rfl hxm
        · have hx1 : x.1 ∉ m :: seen := by
            intro hc
            rcases List.mem_cons.mp hc with h1 | h2
            exacts [hxm h1, hns h2]
          obtain ⟨e, he, heq⟩ := ih (m :: seen) x hx2 hx1
          exact ⟨e, List.mem_cons_of_mem _ he, heq⟩

/-- Characterization of the discovery loop: on a non-raising run, the
accumulated gateways are the input accumulator followed by one gateway per
surviving `(mac, ip)` entry, first occurrence kept. -/
theorem findConduitsGo_ret (lines : List String) :
    ∀ (seen : List String) (acc gs : List Conduit),
      findConduitsGo seen acc lines = .ret gs →
      gs = acc ++ (dedupeFirst seen (parsedEntries lines)).map
        (fun e => Conduit.mkDiscovered e.2 e.1) := by
  induction lines with
  | nil =>
    intro seen acc gs h
    simp only [findConduitsGo] at h
    cases h
    simp [parsedEntries, dedupeFirst]
  | cons line rest ih =>
    intro seen acc gs h
    simp only [findConduitsGo] at h
    have hpe : parsedEntries (line :: rest) =
        (match lineEntry line with
         | none => parsedEntries rest
         | some e => e :: parsedEntries rest) := by
      simp only [parsedEntries, List.filterMap_cons]
      cases lineEntry line <;> rfl
    cases hM : matchArpLine line.data with
    | none =>
      simp only [hM] at h
      have hle : lineEntry line = none := by simp [lineEntry, hM]
      rw [hpe, hle]
      exact ih seen acc gs h
    | some pair =>
      obtain ⟨ip, mac⟩ := pair
      simp only [hM] at h
      cases hN : normalizeMacChars mac with
      | none =>
        simp only [hN] at h
        simp at h
      | some m =>
        simp only [hN] at h
        have hle : lineEntry line = some (String.mk m, String.mk ip) := by
          simp [lineEntry, hM, hN]
        rw [hpe, hle]
        by_cases hmem : String.mk m ∈ seen
        · rw [if_pos hmem] at h
          simp only [dedupeFirst, if_pos hmem]
          exact ih seen acc gs h
        · rw [if_neg hmem] at h
          simp only [dedupeFirst, if_neg hmem]
          by_cases hip : pyIPv4AddressValid ip
          · rw [if_pos hip] at h
            have := ih (String.mk m :: seen) (acc ++ [Conduit.mkDiscovered (String.mk ip) (String.mk m)]) gs h
            rw [this]
            simp [List.append_assoc]
          · rw [if_neg hip] at h
            simp at h

/-- C4: for every neighbor-table input on which discovery completes,
the produced gateway list is sorted ascending by canonical MAC string
(code-point lexicographic order, so for EVERY iteration order of the
table), its MACs are pairwise distinct, each gateway is bound to the
first-encountered IP of its MAC (the `find?` first match of the parsed
entry list), and every parsed entry is represented by a gateway. -/
theorem C4_discovery_dedupes_and_sorts (lines : List String) (gs : List Conduit)
    (h : find_conduits_parse lines = .ret gs) :
    List.Sorted macLe gs ∧
    (gs.map Conduit.mac).Nodup ∧
    (∀ g ∈ gs, (parsedEntries lines).find? (fun e => e.1 == g.mac) = some (g.mac, g.ip)) ∧
    (∀ e ∈ parsedEntries lines, ∃ g ∈ gs, g.mac = e.1) := by
  unfold find_conduits_parse at h
  cases hgo : findConduitsGo [] [] lines with
  | exn msg =>
    rw [hgo] at h
    simp at h
  | ret cs =>
    rw [hgo] at h
    have hgs : gs = sortConduits cs := by
      cases h
      rfl
    have hcs : cs = (dedupeFirst [] (parsedEntries lines)).map
        (fun e => Conduit.mkDiscovered e.2 e.1) := by
      simpa using findConduitsGo_ret lines [] [] cs hgo
    have hperm : gs.Perm cs := hgs ▸ sortConduits_perm cs
    have hmacs : cs.map Conduit.mac = (dedupeFirst [] (parsedEntries lines)).map Prod.fst := by
      rw [hcs, List.map_map]
      rfl
    refine ⟨hgs ▸ sortConduits_sorted cs, ?_, ?_, ?_⟩
    · exact ((hperm.map Conduit.mac).nodup_iff).mpr
        (hmacs ▸ dedupeFirst_nodup (parsedEntries lines) [])
    · intro g hg
      have hg2 : g ∈ cs := hperm.mem_iff.mp hg
      rw [hcs] at hg2
      obtain ⟨e, he, rfl⟩ := List.mem_map.mp hg2
      obtain ⟨em, eip⟩ := e
      exact dedupeFirst_find (parsedEntries lines) [] (em, eip) he
    · intro e he
      obtain ⟨d, hd, hdeq⟩ :=
        dedupeFirst_covers (parsedEntries lines) [] e he (List.not_mem_nil e.1)
      refine ⟨Conduit.mkDiscovered d.2 d.1, ?_, hdeq⟩
      rw [hperm.mem_iff, hcs]
      exact List.mem_map_of_mem _ hd

/-- Witness for C4 at the concrete neighbor table `arpLinesExample`: one
duplicate MAC is dropped (keeping the first IP), the non-vendor MAC and
the garbage line are ignored, and the output is MAC-sorted. -/
theorem C4_discovery_dedupes_and_sorts_witness :
    List.Sorted macLe discoveredExample ∧
    (discoveredExample.map Conduit.mac).Nodup ∧
    (∀ g ∈ discoveredExample,
      (parsedEntries arpLinesExample).find? (fun e => e.1 == g.mac) = some (g.mac, g.ip)) ∧
    (∀ e ∈ parsedEntries arpLinesExample, ∃ g ∈ discoveredExample, g.mac = e.1) :=
  C4_discovery_dedupes_and_sorts arpLinesExample discoveredExample (by decide)

-- ====================================================================
-- Characterization of the user-creation loop
-- ====================================================================

/-- Full characterization of the user-creation loop on a non-raising run:
every input gateway gets a record whose `createResult` is its
`create_jumphost_user` outcome (the loop NEVER stops early), the
SSH-authorization calls are exactly those predicted by `sshCalledSpec`
(skipped as soon as the phase flag has gone false), and the returned flag
is the conjunction of per-gateway success. -/
theorem users_go_spec (j : Jumphost) (group : Option String) :
    ∀ (gws : List (Conduit × GwEnv)) (flag r : Bool) (recs : List GwRecord),
      users_go j group flag gws = .ret (r, recs) →
      recs.map GwRecord.createResult = gws.map (createRes j group) ∧
      recs.map GwRecord.sshCalled = sshCalledSpec j group flag gws ∧
      r = (flag && gws.all (fun ge => (createRes j group ge).isSome && ge.2.sshOk)) := by
  intro gws
  induction gws with
  | nil =>
    intro flag r recs h
    simp only [users_go] at h
    injection h with h1
    injection h1 with ha hb
    subst ha
    subst hb
    simp [sshCalledSpec]
  | cons ge rest ih =>
    intro flag r recs h
    obtain ⟨c, e⟩ := ge
    simp only [users_go] at h
    cases hcr : (j.create_jumphost_user e.query1 e.useradd e.query2
        (c.get_jumphost_userid j) c.hostname c.hostname group).1 with
    | none =>
      simp only [hcr] at h
      cases hgo : users_go j group false rest with
      | exn m =>
        simp only [hgo] at h
        exact absurd h (by simp)
      | ret pr =>
        obtain ⟨r2, recs2⟩ := pr
        simp only [hgo] at h
        injection h with h1
        injection h1 with ha hb
        subst ha
        subst hb
        obtain ⟨ih1, ih2, ih3⟩ := ih false r2 recs2 hgo
        refine ⟨?_, ?_, ?_⟩
        · simp [createRes, hcr, ih1]
        · simp [sshCalledSpec, createRes, hcr, ih2]
        · simp [ih3, createRes, hcr]
    | some u =>
      simp only [hcr] at h
      cases hset : c.set_jumphost_userid j u with
      | exn m =>
        simp only [hset] at h
        exact absurd h (by simp)
      | ret p =>
        obtain ⟨b, c2⟩ := p
        simp only [hset] at h
        by_cases hflag : flag = true
        · rw [if_pos hflag] at h
          subst hflag
          cases he : e.sshOk with
          | true =>
            simp only [he, if_true] at h
            cases hgo : users_go j group true rest with
            | exn m =>
              rw [hgo] at h
              exact absurd h (by simp)
            | ret pr =>
              obtain ⟨r2, recs2⟩ := pr
              simp only [hgo] at h
              injection h with h1
              injection h1 with ha hb
              subst ha
              subst hb
              obtain ⟨ih1, ih2, ih3⟩ := ih _ r2 recs2 hgo
              refine ⟨?_, ?_, ?_⟩
              · simp [createRes, hcr, ih1]
              · simp only [List.map_cons, sshCalledSpec]
                simp [createRes, hcr, he] at ih2 ⊢
                exact ih2
              · rw [ih3]
                simp [createRes, hcr, he]
          | false =>
            simp only [he, Bool.false_eq_true, if_false] at h
            cases hgo : users_go j group false rest with
            | exn m =>
              simp only [hgo] at h
              exact absurd h (by simp)
            | ret pr =>
              obtain ⟨r2, recs2⟩ := pr
              simp only [hgo] at h
              injection h with h1
              injection h1 with ha hb
              subst ha
              subst hb
              obtain ⟨ih1, ih2, ih3⟩ := ih _ r2 recs2 hgo
              refine ⟨?_, ?_, ?_⟩
              · simp [createRes, hcr, ih1]
              · simp only [List.map_cons, sshCalledSpec]
                simp [createRes, hcr, he] at ih2 ⊢
                exact ih2
              · rw [ih3]
                simp [createRes, hcr, he]
        · rw [if_neg hflag] at h
          have hf : flag = false := by
            cases flag
            · rfl
            · exact absurd rfl hflag
          subst hf
          cases hgo : users_go j group false rest with
          | exn m =>
            simp only [hgo] at h
            exact absurd h (by simp)
          | ret pr =>
            obtain ⟨r2, recs2⟩ := pr
            simp only [hgo] at h
            injection h with h1
            injection h1 with ha hb
            subst ha
            subst hb
            obtain ⟨ih1, ih2, ih3⟩ := ih false r2 recs2 hgo
            refine ⟨?_, ?_, ?_⟩
            · simp [createRes, hcr, ih1]
            · simp only [List.map_cons, sshCalledSpec]
              simp [createRes, hcr] at ih2 ⊢
              exact ih2
            · rw [ih3]
              simp

/-- C8 counterexample: with a UID conflict on the first gateway, the phase
keeps calling `create_jumphost_user` for the remaining gateway (its record
carries `createResult = some 7000`, an idempotent reconciliation success)
and reports the phase failed — but it does NOT perform the remaining
gateway's SSH authorization (`sshCalled = false`), because the code gates
the authorization on the phase-wide `result` flag (`if result:`), not on
the current gateway's own success.  This refutes the claim that the full
per-gateway processing (reconciliation AND SSH authorization) continues
for every remaining gateway. -/
theorem C8_user_phase_counterexample :
    create_gateway_users_on_jumphosts jumphostDefault (some "ttn-nyc-gateways")
        [(conduitConflict, gwEnvConflict), (conduitSecond, gwEnvSecond)] =
      .ret (false,
        [{ conduit := conduitConflict, createResult := none, sshCalled := false },
         { conduit := { conduitSecond with jumphost_userid := some 7000 },
           createResult := some 7000, sshCalled := false }]) := by
  decide

/-- C8 (amended): a UID conflict (or any `create_jumphost_user` failure) is
fatal for that gateway only in the sense that the loop never stops early:
every gateway still gets its `create_jumphost_user` call (one record per
input, carrying that call's result), and the phase result is reported
failed whenever any gateway's creation failed.  However, SSH authorization
is performed exactly as `sshCalledSpec` predicts: once any earlier gateway
has failed (creation or authorization), the authorization step is skipped
for the failing and all later gateways. -/
theorem C8_user_phase_conflict_isolation (j : Jumphost) (group : Option String)
    (gws : List (Conduit × GwEnv)) (r : Bool) (recs : List GwRecord)
    (h : create_gateway_users_on_jumphosts j group gws = .ret (r, recs)) :
    recs.map GwRecord.createResult = gws.map (createRes j group) ∧
    recs.map GwRecord.sshCalled = sshCalledSpec j group true gws ∧
    r = gws.all (fun ge => (createRes j group ge).isSome && ge.2.sshOk) ∧
    (∀ ge ∈ gws, createRes j group ge = none → r = false) := by
  obtain ⟨h1, h2, h3⟩ := users_go_spec j group gws true r recs h
  refine ⟨h1, h2, by simpa using h3, ?_⟩
  intro ge hge hnone
  rw [h3]
  simp only [Bool.true_and]
  rw [Bool.eq_false_iff]
  intro hall
  have h4 := List.all_eq_true.mp hall ge hge
  simp [hnone] at h4

/-- Witness for C8 (amended) on a one-gateway run that succeeds end to end:
the record carries the reconciled UID, SSH authorization was performed, and
the phase reports success. -/
theorem C8_user_phase_conflict_isolation_witness :
    ([{ conduit := { conduitSecond with jumphost_userid := some 7000 },
        createResult := some 7000, sshCalled := true }] : List GwRecord).map
          GwRecord.createResult =
      [(conduitSecond, gwEnvSecond)].map (createRes jumphostDefault (some "ttn-nyc-gateways")) ∧
    ([{ conduit := { conduitSecond with jumphost_userid := some 7000 },
        createResult := some 7000, sshCalled := true }] : List GwRecord).map
          GwRecord.sshCalled =
      sshCalledSpec jumphostDefault (some "ttn-nyc-gateways") true
        [(conduitSecond, gwEnvSecond)] ∧
    true = [(conduitSecond, gwEnvSecond)].all
      (fun ge => (createRes jumphostDefault (some "ttn-nyc-gateways") ge).isSome && ge.2.sshOk) ∧
    (∀ ge ∈ [(conduitSecond, gwEnvSecond)],
      createRes jumphostDefault (some "ttn-nyc-gateways") ge = none → true = false) :=
  C8_user_phase_conflict_isolation jumphostDefault (some "ttn-nyc-gateways")
    [(conduitSecond, gwEnvSecond)] true
    [{ conduit := { conduitSecond with jumphost_userid := some 7000 },
       createResult := some 7000, sshCalled := true }] (by decide)

-- ====================================================================
-- Helper lemmas and theorems for the application driver (App.run)
-- ====================================================================

/-- With a failing mass-ping probe or a raising `arp` command,
`find_conduits` reports failure and the run exits 1 (whether or not the
jumphost was reachable). -/
theorem appRun_discovery_failure (env : AppEnv)
    (h : env.probe_ok = false ∨ env.arp_lines = none) : appRun env = .ret 1 := by
  unfold appRun find_conduits check_jumphosts
  rcases h with h | h
  · cases hr : env.jumphost_reachable <;> simp [hr, h]
  · cases hr : env.jumphost_reachable <;> cases hp : env.probe_ok <;> simp [hr, hp, h]

/-- Inversion of `find_conduits` on the success path: the probe and the
`arp` command both completed and the parse returned the list. -/
theorem find_conduits_ret_some (env : AppEnv) (cs : List Conduit)
    (h : find_conduits env = .ret (some cs)) :
    env.probe_ok = true ∧ ∃ lines, env.arp_lines = some lines ∧
      find_conduits_parse lines = .ret cs := by
  unfold find_conduits at h
  cases hp : env.probe_ok
  · rw [hp] at h; simp at h
  · rw [hp] at h
    simp only [Bool.not_true, Bool.false_eq_true, if_false] at h
    cases ha : env.arp_lines with
    | none => rw [ha] at h; simp at h
    | some lines =>
      rw [ha] at h
      cases hfp : find_conduits_parse lines with
      | exn m => simp only [hfp] at h; simp at h
      | ret cs2 =>
        simp only [hfp] at h
        injection h with h
        injection h with h
        exact ⟨rfl, lines, rfl, by rw [hfp, h]⟩

/-- Inversion of the SSH reachability gate on its success path: either all
discovered gateways answered SSH and the list passes through unchanged, or
the skip option was set and the nonempty reachable sublist survives. -/
theorem sshGate_some (env : AppEnv) (cs cs0 : List Conduit)
    (h : sshGate env cs = some cs0) :
    (cs.filter (fun c => !env.ssh_ok c.mac)).length = 0 ∧ cs0 = cs ∨
      env.skip_if_ssh_fails = true ∧ cs0 = cs.filter (fun c => env.ssh_ok c.mac) ∧
        cs0.length ≠ 0 := by
  unfold sshGate at h
  dsimp only at h
  by_cases h1 : (cs.filter (fun c => !env.ssh_ok c.mac)).length > 0
  · rw [if_pos h1] at h
    cases hskip : env.skip_if_ssh_fails
    · rw [hskip] at h; simp at h
    · rw [hskip] at h
      simp only [Bool.not_true, Bool.false_eq_true, if_false] at h
      by_cases h2 : (cs.filter (fun c => env.ssh_ok c.mac)).length = 0
      · rw [if_pos h2] at h; simp at h
      · rw [if_neg h2] at h
        injection h with h
        exact Or.inr ⟨rfl, h.symm, by rw [h] at h2; exact h2⟩
  · rw [if_neg h1] at h
    injection h with h
    exact Or.inl ⟨Nat.eq_zero_of_not_pos h1, h.symm⟩


/-- A successful pass of the product-id loop yields one output gateway per
input gateway; in particular an empty output list means an empty input. -/
theorem get_product_ids_go_nil (env : AppEnv) (r b : Bool) (cs : List Conduit)
    (h : get_product_ids_go env r cs = .ret (b, [])) : cs = [] := by
  cases cs with
  | nil => rfl
  | cons c rest =>
    exfalso
    simp only [get_product_ids_go] at h
    split at h
    · split at h
      · simp at h
      · split at h <;> simp at h
    · split at h <;> simp at h

/-- The host-key loop yields one output gateway per input gateway; an
empty output list means an empty input. -/
theorem get_host_keys_go_nil (env : AppEnv) (r b : Bool) (cs : List Conduit)
    (h : get_host_keys_go env r cs = (b, [])) : cs = [] := by
  cases cs with
  | nil => rfl
  | cons c rest =>
    exfalso
    simp only [get_host_keys_go] at h
    split at h <;> simp at h

/-- The LoRa-EUI loop yields one output gateway per input gateway; an
empty output list means an empty input. -/
theorem get_lora_eui64_go_nil (env : AppEnv) (r b : Bool) (cs : List Conduit)
    (h : get_lora_eui64_go env r cs = (b, [])) : cs = [] := by
  cases cs with
  | nil => rfl
  | cons c rest =>
    exfalso
    simp only [get_lora_eui64_go] at h
    split at h <;> simp at h

/-- The user-creation loop yields one record per gateway; an empty record
list means an empty gateway list. -/
theorem users_go_ret_nil (j : Jumphost) (group : Option String) (flag r : Bool)
    (gws : List (Conduit × GwEnv)) (h : users_go j group flag gws = .ret (r, [])) :
    gws = [] := by
  have hs := (users_go_spec j group gws flag r [] h).1
  simp only [List.map_nil] at hs
  exact List.map_eq_nil.mp hs.symm

/-- With `setup_jumphost_tunnel` raising AttributeError on every call, the
tunnel phase loop returns (rather than raises) only over the empty gateway
list, and then returns its initial flag. -/
theorem setup_tunnels_go_ret (env : AppEnv) (r b : Bool) (cs : List Conduit)
    (h : setup_tunnels_go env r cs = .ret b) : cs = [] ∧ b = r := by
  cases cs with
  | nil =>
    simp only [setup_tunnels_go] at h
    injection h with h
    exact ⟨rfl, h.symm⟩
  | cons c rest =>
    exfalso
    simp [setup_tunnels_go, Conduit.setup_jumphost_tunnel, Conduit.set_date_using_ntp,
      sudoStep] at h

/-- C3 counterexample: a neighbor table whose parse yields NO vendor-prefix
gateways does not make the run fail.  `find_conduits` returns success with
the empty list (app.py lines 303-349 never check that the parsed list is
nonempty), every later fleet phase succeeds vacuously over zero gateways,
and the process exits 0 — refuting the claimed "no conduits found, exit
code 1". -/
theorem C3_empty_discovery_counterexample :
    appEnvNoConduits.arp_lines = some ["no gateways on this segment"] ∧
    find_conduits_parse ["no gateways on this segment"] = .ret [] ∧
    appRun appEnvNoConduits = .ret 0 := by decide

/-- C3 (amended): exit code 1 is returned whenever discovery itself fails
(the mass-ping probe or the `arp` command raises) — but not when the parse
merely finds zero gateways; and exit code 0 is returned exactly when the
jumphost was reachable, the gateway-group phase succeeded, and discovery
completed finding zero gateways.  In particular exit 0 never occurs with
any discovered gateway — the tunnel phase raises AttributeError whenever
at least one gateway reaches it — so "every discovered gateway fully
provisioned" holds vacuously on every exit-0 run. -/
theorem C3_exit_code_conditions (env : AppEnv) :
    ((env.probe_ok = false ∨ env.arp_lines = none) → appRun env = .ret 1) ∧
    (appRun env = .ret 0 ↔
      env.jumphost_reachable = true ∧
      create_gateway_groups_on_jumphosts env = true ∧
      env.probe_ok = true ∧
      ∃ lines, env.arp_lines = some lines ∧ find_conduits_parse lines = .ret []) := by
  constructor
  · exact appRun_discovery_failure env
  constructor
  · intro h
    unfold appRun at h
    cases hr : check_jumphosts env
    · rw [hr] at h; simp at h
    · rw [hr] at h
      simp only [Bool.not_true, Bool.false_eq_true, if_false] at h
      cases hfc : find_conduits env with
      | exn m => simp only [hfc] at h; simp at h
      | ret o =>
        cases o with
        | none => simp only [hfc] at h; simp at h
        | some cs =>
          simp only [hfc] at h
          cases hsg : sshGate env cs with
          | none => simp only [hsg] at h; simp at h
          | some cs0 =>
            simp only [hsg] at h
            cases hpid : get_product_ids env cs0 with
            | exn m => simp only [hpid] at h; simp at h
            | ret p =>
              obtain ⟨ok1, cs1⟩ := p
              simp only [hpid] at h
              cases hok1 : ok1
              · rw [hok1] at h; simp at h
              · rw [hok1] at h
                simp only [Bool.not_true, Bool.false_eq_true, if_false] at h
                cases hpn : populate_gateway_names env cs1 with
                | mk ok2 cs2 =>
                  simp only [hpn] at h
                  cases hok2 : ok2
                  · rw [hok2] at h; simp at h
                  · rw [hok2] at h
                    simp only [Bool.not_true, Bool.false_eq_true, if_false] at h
                    cases hhk : get_host_keys env cs2 with
                    | mk ok3 cs3 =>
                      simp only [hhk] at h
                      cases hok3 : ok3
                      · rw [hok3] at h; simp at h
                      · rw [hok3] at h
                        simp only [Bool.not_true, Bool.false_eq_true, if_false] at h
                        cases hle : get_lora_eui64 env cs3 with
                        | mk ok4 cs4 =>
                          simp only [hle] at h
                          cases hok4 : ok4
                          · rw [hok4] at h; simp at h
                          · rw [hok4] at h
                            simp only [Bool.not_true, Bool.false_eq_true, if_false] at h
                            cases hgg : create_gateway_groups_on_jumphosts env
                            · rw [hgg] at h; simp at h
                            · rw [hgg] at h
                              simp only [Bool.not_true, Bool.false_eq_true, if_false] at h
                              cases hcu : app_create_gateway_users env cs4 with
                              | exn m => simp only [hcu] at h; simp at h
                              | ret q =>
                                obtain ⟨ok5, recs⟩ := q
                                simp only [hcu] at h
                                cases hok5 : ok5
                                · rw [hok5] at h; simp at h
                                · rw [hok5] at h
                                  simp only [Bool.not_true, Bool.false_eq_true, if_false] at h
                                  cases htn : setup_jumphost_tunnels_on_gateways env
                                      (recs.map GwRecord.conduit) with
                                  | exn m => simp only [htn] at h; simp at h
                                  | ret ok6 =>
                                    simp only [htn] at h
                                    cases hok6 : ok6
                                    · rw [hok6] at h; simp at h
                                    · -- success leaf: walk the phases back to an
                                      -- empty discovery
                                      have htn2 : setup_tunnels_go env true
                                          (recs.map GwRecord.conduit) = .ret ok6 := htn
                                      obtain ⟨hmapnil, -⟩ :=
                                        setup_tunnels_go_ret env true ok6
                                          (recs.map GwRecord.conduit) htn2
                                      have hrecs : recs = [] := List.map_eq_nil.mp hmapnil
                                      subst hrecs
                                      have hcu2 : users_go env.jumphost
                                          (some env.gateway_group) true
                                          (cs4.map (fun c => (c, env.gw_env c.mac))) =
                                          .ret (ok5, []) := hcu
                                      have hcs4 : cs4 = [] :=
                                        List.map_eq_nil.mp
                                          (users_go_ret_nil env.jumphost
                                            (some env.gateway_group) true ok5 _ hcu2)
                                      subst hcs4
                                      have hle2 : get_lora_eui64_go env true cs3 =
                                          (ok4, []) := hle
                                      have hcs3 : cs3 = [] :=
                                        get_lora_eui64_go_nil env true ok4 cs3 hle2
                                      subst hcs3
                                      have hhk2 : get_host_keys_go env true cs2 =
                                          (ok3, []) := hhk
                                      have hcs2 : cs2 = [] :=
                                        get_host_keys_go_nil env true ok3 cs2 hhk2
                                      subst hcs2
                                      have hcs1 : cs1 = [] := by
                                        unfold populate_gateway_names at hpn
                                        injection hpn with h1 h2
                                        exact List.map_eq_nil.mp h2
                                      subst hcs1
                                      have hpid2 : get_product_ids_go env true cs0 =
                                          .ret (ok1, []) := hpid
                                      have hcs0 : cs0 = [] :=
                                        get_product_ids_go_nil env true ok1 cs0 hpid2
                                      subst hcs0
                                      have hcs : cs = [] := by
                                        rcases sshGate_some env cs [] hsg with
                                          ⟨-, hh⟩ | ⟨-, -, hh⟩
                                        · exact hh.symm
                                        · simp at hh
                                      subst hcs
                                      obtain ⟨hp, lines, ha, hfp⟩ :=
                                        find_conduits_ret_some env [] hfc
                                      refine ⟨?_, rfl, hp, lines, ha, hfp⟩
                                      unfold check_jumphosts at hr; exact hr
  · rintro ⟨hr, hg, hp, lines, ha, hparse⟩
    unfold appRun
    have hcj : check_jumphosts env = true := hr
    rw [hcj]
    simp only [Bool.not_true, Bool.false_eq_true, if_false]
    have hfc : find_conduits env = .ret (some []) := by
      unfold find_conduits
      rw [hp, ha]
      simp only [Bool.not_true, Bool.false_eq_true, if_false, hparse]
    simp only [hfc]
    simp [sshGate, get_product_ids, get_product_ids_go, populate_gateway_names,
      get_host_keys, get_host_keys_go, get_lora_eui64, get_lora_eui64_go,
      app_create_gateway_users, create_gateway_users_on_jumphosts, users_go,
      setup_jumphost_tunnels_on_gateways, setup_tunnels_go, hg]

/-- Witness for C3: the failing-probe environment exits 1 by the first
part, and the empty-discovery environment exits 0 by the backward
direction of the equivalence. -/
theorem C3_exit_code_conditions_witness :
    appRun appEnvProbeFail = PyResult.ret 1 ∧ appRun appEnvNoConduits = PyResult.ret 0 :=
  ⟨(C3_exit_code_conditions appEnvProbeFail).1 (Or.inl rfl),
   (C3_exit_code_conditions appEnvNoConduits).2.mpr
     ⟨rfl, rfl, rfl, ["no gateways on this segment"], rfl, by decide⟩⟩

-- ====================================================================
-- Theorems about the tunnel-provisioning sequence
-- ====================================================================

/-- C6: the spec claims a failing step — in particular a failing NTP sync —
makes `setup_jumphost_tunnel` return `False` with no later step executed.
The code diverges: `ConduitSsh.sudo` returns a bare bool and conduit.py
line 215 reads `.ok` off it, so every run, NTP success or failure alike,
raises AttributeError after issuing exactly the `ntpdate` command.  No
later step executes (there is indeed nothing like a rollback), but the
function never returns `False` — or anything else. -/
theorem C6_tunnel_crash_at_ntp (c : Conduit) (j : Jumphost) (keys script : List String)
    (env : Nat → Bool) :
    c.setup_jumphost_tunnel j keys script env = (.exn attrErrBoolOk, [.ntpdateCmd]) := rfl

/-- C10: the spec claims every run passes the modes `0o755`, `0o700` and
the hexadecimal `0x700` to `mkdir`.  Those literals do appear at conduit.py
lines 252-259, but no run of `setup_jumphost_tunnel` reaches any `mkdir`
call: the sequence raises AttributeError at the NTP step first, so the
trace contains no mkdir command at all — and `Conduit.mkdir` itself, called
directly, raises the same AttributeError after its first command. -/
theorem C10_no_mkdir_reached (c : Conduit) (j : Jumphost) (keys script : List String)
    (env : Nat → Bool) (tr : List RCmd) (mode : Nat) (path : String) :
    mkdirCalls (c.setup_jumphost_tunnel j keys script env).2 = [] ∧
    (c.setup_jumphost_tunnel j keys script env).1 = .exn attrErrBoolOk ∧
    (Conduit.mkdir c env tr mode path).1 = .exn attrErrBoolOk := ⟨rfl, rfl, rfl⟩
